import Mathlib

set_option maxHeartbeats 1000000

/-!
A shallow embedding of the medical bill manager application
(src/medical_bill_manager.py and src/Home.py): a Streamlit front end over
a Supabase table API, with an AI extraction adapter and a PDF report
renderer.  Pure fragments of the Python code are translated into Lean
functions; effectful handlers become functions from their inputs (widget
values, session state, the outcome of the store call) to an explicit
outcome record listing the store calls performed, the new session state,
and the surfaced messages.  Python exceptions are modelled with Except.
-/

/-- User-visible messages emitted through the streamlit API
(st.warning, st.success, st.error). -/
inductive Msg where
  | warning (s : String)
  | success (s : String)
  | error (s : String)
deriving DecidableEq

/-- Python exception kinds raised or caught by the handlers. -/
inductive PyErr where
  | attributeError
  | valueError
  | typeError
  | keyError
  | indexError
deriving DecidableEq

deriving instance DecidableEq for Except

/-- A calendar date as held by datetime.date: year, month, day. -/
structure Date where
  year : Nat
  month : Nat
  day : Nat
deriving DecidableEq

/-- Field bounds of a representable datetime.date (the day bound is the
coarse 1..31 range; finer calendar validity is not needed here). -/
def validDate (d : Date) : Prop :=
  1 ≤ d.year ∧ d.year ≤ 9999 ∧ 1 ≤ d.month ∧ d.month ≤ 12 ∧ 1 ≤ d.day ∧ d.day ≤ 31

instance (d : Date) : Decidable (validDate d) := by
  unfold validDate; infer_instance

/-- datetime.date ordering: lexicographic on (year, month, day). -/
def dateLe (a b : Date) : Prop :=
  a.year < b.year ∨
    (a.year = b.year ∧ (a.month < b.month ∨ (a.month = b.month ∧ a.day ≤ b.day)))

/-- Strict datetime.date ordering (the Python comparison a < b). -/
def dateLt (a b : Date) : Prop :=
  a.year < b.year ∨
    (a.year = b.year ∧ (a.month < b.month ∨ (a.month = b.month ∧ a.day < b.day)))

instance (a b : Date) : Decidable (dateLe a b) := by
  unfold dateLe; infer_instance

instance (a b : Date) : Decidable (dateLt a b) := by
  unfold dateLt; infer_instance

/-- Boolean form of datetime.date `a <= b`. -/
def dateLeB (a b : Date) : Bool := decide (dateLe a b)

/-- Boolean form of datetime.date `a < b`. -/
def dateLtB (a b : Date) : Bool := decide (dateLt a b)

/-- The ASCII digit character for n (0..9). -/
def dchar (n : Nat) : Char := Char.ofNat (48 + n)

/-- Zero-padded 4-digit decimal rendering (the %04d part of
date.isoformat, adequate for years up to 9999). -/
def pad4 (n : Nat) : List Char :=
  [dchar (n / 1000 % 10), dchar (n / 100 % 10), dchar (n / 10 % 10), dchar (n % 10)]

/-- Zero-padded 2-digit decimal rendering (the %02d part of
date.isoformat). -/
def pad2 (n : Nat) : List Char :=
  [dchar (n / 10 % 10), dchar (n % 10)]

/-- str(d) for a datetime.date d: the ISO YYYY-MM-DD rendering used at
the store boundary (line 247 of the source) and in the filter comparison
(line 288). -/
def toIso (dt : Date) : String :=
  ⟨pad4 dt.year ++ '-' :: (pad2 dt.month ++ '-' :: pad2 dt.day)⟩

/-- Python string comparison s <= t: lexicographic over code points,
with a proper prefix comparing as smaller. -/
def lexLe (s t : List Char) : Bool :=
  match s, t with
  | [], _ => true
  | _ :: _, [] => false
  | a :: s1, b :: t1 => decide (a < b) || (a == b && lexLe s1 t1)

/-- Python string comparison s < t: strict lexicographic order. -/
def lexLt (s t : List Char) : Bool :=
  match s, t with
  | [], [] => false
  | [], _ :: _ => true
  | _ :: _, [] => false
  | a :: s1, b :: t1 => decide (a < b) || (a == b && lexLt s1 t1)

/-- Python `s <= t` on strings. -/
def pyStrLe (s t : String) : Bool := lexLe s.data t.data

/-- A row of the bills table as returned by the store
(supabase.table('bills').select('*')): bill_date arrives as a string. -/
structure BillRow where
  id : Nat
  vendor_name : String
  bill_no : String
  bill_date : String
  bill_amount : Rat
  doctor_name : String
deriving DecidableEq

/-- The module-level date-range filter (lines 284-289 of the source):
if start_date > end_date an error is surfaced and no filtered frame is
produced; otherwise the rows are filtered by elementwise string
comparison of bill_date against str(start_date) and str(end_date). -/
def filter_step (df : List BillRow) (start_date end_date : Date) :
    Except String (List BillRow) :=
  if dateLtB end_date start_date then
    .error "Error: Start date must be before end date."
  else
    .ok (df.filter fun b =>
      pyStrLe (toIso start_date) b.bill_date && pyStrLe b.bill_date (toIso end_date))

/-- The pending form state kept in st.session_state.form_data
(vendor_name, bill_no, bill_date, bill_amount, doctor_name). -/
structure FormData where
  vendor_name : String
  bill_no : String
  bill_date : Date
  bill_amount : Rat
  doctor_name : Option String
deriving DecidableEq

/-- The reset value of the form state (lines 192, 237 and 256): empty
vendor and bill number, today's date, zero amount, no doctor. -/
def defaultFormData (today : Date) : FormData :=
  ⟨ "", "", today, 0, none⟩

/-- The record handed to supabase.table('bills').insert (lines 244-250):
bill_date has already been serialized with str(). -/
structure BillInsert where
  vendor_name : String
  bill_no : String
  bill_date : String
  bill_amount : Rat
  doctor_name : String
deriving DecidableEq

/-- A doctors-table row (id, name). -/
structure Doctor where
  id : Nat
  name : String
deriving DecidableEq

/-- The st.cache_data state: the two memoized read queries
(fetch_doctors, ttl 300, and fetch_bills, ttl 60).  A `none` entry means
the memo is absent and the next call hits the store. -/
structure Cache where
  doctors : Option (List Doctor)
  bills : Option (List BillRow)
deriving DecidableEq

/-- st.cache_data.clear(): both memo entries are dropped. -/
def clearCache : Cache := ⟨none, none⟩

/-- The backing store contents visible through the table API. -/
structure Store where
  doctors : List Doctor
  bills : List BillRow
deriving DecidableEq

/-- fetch_doctors (lines 48-56): serve the memo when present, otherwise
read the store and memoize the result.  (The ttl expiry and the error
branch of the store read are outside the claims and are not modelled.) -/
def fetch_doctors (c : Cache) (store : Store) : List Doctor × Cache :=
  match c.doctors with
  | some v => (v, c)
  | none => (store.doctors, { c with doctors := some store.doctors })

/-- fetch_bills (lines 58-66): same memoization for the bills query. -/
def fetch_bills (c : Cache) (store : Store) : List BillRow × Cache :=
  match c.bills with
  | some v => (v, c)
  | none => (store.bills, { c with bills := some store.bills })

/-- Observable outcome of the bill_form save handler: the insert calls
issued to the store, the form state and cache afterwards, and the
surfaced messages. -/
structure SaveOutcome where
  inserts : List BillInsert
  form_data : FormData
  cache : Cache
  msgs : List Msg
deriving DecidableEq

/-- The save_submitted handler of bill_form (lines 240-258).  Inputs are
the widget values, the session form state, today's date, the cache, and
the outcome of the insert call (ok, or the exception it raised).
Mirrors the source: `if not vendor_name or not bill_date` warns and
changes nothing; otherwise one insert is issued with bill_date
serialized via str(); if the insert returns, a success message is shown,
the cache is cleared and the form is reset; if it raises, the except
branch only surfaces the error, leaving form and cache untouched. -/
def save_submitted_handler (vendor_name bill_no : String) (bill_date : Option Date)
    (bill_amount : Rat) (selected_doctor : String)
    (form0 : FormData) (today : Date) (cache : Cache)
    (insertResult : Except String Unit) : SaveOutcome :=
  match bill_date with
  | none => ⟨[], form0, cache, [Msg.warning "Vendor Name and Bill Date are required."]⟩
  | some d =>
    if vendor_name = "" then
      ⟨[], form0, cache, [Msg.warning "Vendor Name and Bill Date are required."]⟩
    else
      match insertResult with
      | .ok _ =>
        ⟨[⟨vendor_name, bill_no, toIso d, bill_amount, selected_doctor⟩],
          defaultFormData today, clearCache,
          [Msg.success "Bill saved successfully!"]⟩
      | .error e =>
        ⟨[⟨vendor_name, bill_no, toIso d, bill_amount, selected_doctor⟩],
          form0, cache, [Msg.error ("Failed to save bill: " ++ e)]⟩

/-- Observable outcome of the add_doctor_form handler. -/
structure DoctorAddOutcome where
  inserts : List String
  cache : Cache
  msgs : List Msg
deriving DecidableEq

/-- The add_doctor_form handler (lines 157-169): nothing happens unless
the form was submitted with a non-empty name; an exact (case-sensitive)
match against the cached doctor names warns without inserting; otherwise
one insert is issued and, when it returns, the cache is cleared. -/
def add_doctor_handler (submitted : Bool) (new_doctor_name : String)
    (doctor_names : List String) (cache : Cache)
    (insertResult : Except String Unit) : DoctorAddOutcome :=
  if submitted && new_doctor_name != "" then
    if doctor_names.contains new_doctor_name then
      ⟨[], cache, [Msg.warning "This doctor already exists."]⟩
    else
      match insertResult with
      | .ok _ =>
        ⟨[new_doctor_name], clearCache,
          [Msg.success ("Added Dr. " ++ new_doctor_name)]⟩
      | .error e =>
        ⟨[new_doctor_name], cache, [Msg.error ("Failed to add doctor: " ++ e)]⟩
  else ⟨[], cache, []⟩

/-- Observable outcome of a delete handler: the delete calls issued, the
cache afterwards, surfaced messages, and whether st.rerun() was hit. -/
structure DeleteOutcome where
  deletes : List Nat
  cache : Cache
  msgs : List Msg
  rerun : Bool
deriving DecidableEq

/-- The sidebar doctor-delete handler (lines 178-184): delete, clear the
cache, rerun; on exception only an error is surfaced. -/
def delete_doctor_handler (doctorId : Nat) (cache : Cache)
    (deleteResult : Except String Unit) : DeleteOutcome :=
  match deleteResult with
  | .ok _ => ⟨[doctorId], clearCache, [], true⟩
  | .error _ => ⟨[doctorId], cache, [Msg.error "Failed to delete."], false⟩

/-- The Delete Selected Bill handler (lines 325-332): delete, success
message, clear the cache, rerun; on exception only an error is surfaced. -/
def delete_bill_handler (billId : Nat) (cache : Cache)
    (deleteResult : Except String Unit) : DeleteOutcome :=
  match deleteResult with
  | .ok _ => ⟨[billId], clearCache, [Msg.success "Bill deleted."], true⟩
  | .error e => ⟨[billId], cache, [Msg.error ("Failed to delete bill: " ++ e)], false⟩

/-- A DataFrame row as consumed by generate_pdf: row.get(col, default)
returns the default when the column is absent, modelled with Option. -/
structure PdfRow where
  vendor_name : Option String
  bill_no : Option String
  bill_date : Option String
  bill_amount : Option Rat
  doctor_name : Option String
deriving DecidableEq

/-- One pdf.cell call: width, text, bordered or not.  (The constant
height 10 and font changes carry no claim-relevant content.) -/
structure Cell where
  w : Nat
  txt : String
  border : Bool
deriving DecidableEq

/-- The emitted pdf operations: cells and line breaks. -/
inductive PdfOut where
  | cell (c : Cell)
  | ln
deriving DecidableEq

/-- col_widths of generate_pdf (line 78). -/
def col_widths : List Nat := [15, 50, 30, 30, 30, 35]

/-- The fixed header row labels (line 79). -/
def pdfHeaders : List String := ["S.No", "Vendor", "Bill No.", "Bill Date", "Amount", "Doctor"]

/-- Round a rational to the nearest integer, ties to even (the rounding
of Python's "%.2f"-style formatting, up to binary float artifacts). -/
def roundHalfEven (q : Rat) : Int :=
  let f := q.floor
  let frac := q - f
  if frac < 1 / 2 then f
  else if 1 / 2 < frac then f + 1
  else if f % 2 = 0 then f else f + 1

/-- Render n as at least two decimal digits. -/
def twoDigits (n : Nat) : String :=
  if n < 10 then "0" ++ toString n else toString n

/-- The body of the f-string `${...:.2f}`: two decimal places, no
thousands separator. -/
def ratFixed2 (q : Rat) : String :=
  let c := roundHalfEven (q * 100)
  let sign := if c < 0 then "-" else ""
  let a := c.natAbs
  sign ++ toString (a / 100) ++ "." ++ twoDigits (a % 100)

/-- The amount cell text of a pdf row (line 93). -/
def fmtAmount (q : Rat) : String := "$" ++ ratFixed2 q

/-- Line 87 calls st.print, which does not exist in the streamlit
module: the attribute access raises AttributeError on every call. -/
def st_print (_s : String) : Except PyErr Unit := .error PyErr.attributeError

/-- The cells of one data row (lines 89-102), with the 1-based serial
number and .get defaults. -/
def rowCells (i : Nat) (row : PdfRow) : List PdfOut :=
  [PdfOut.cell ⟨15, toString (i + 1), true⟩,
    PdfOut.cell ⟨50, row.vendor_name.getD "", true⟩,
    PdfOut.cell ⟨30, row.bill_no.getD "", true⟩,
    PdfOut.cell ⟨30, row.bill_date.getD "", true⟩,
    PdfOut.cell ⟨30, fmtAmount (row.bill_amount.getD 0), true⟩,
    PdfOut.cell ⟨35, row.doctor_name.getD "", true⟩,
    PdfOut.ln]

/-- The title cell and the bordered header row emitted before the data
loop (lines 74-82). -/
def titleAndHeader : List PdfOut :=
  [PdfOut.cell ⟨200, "Medical Bills Report", false⟩, PdfOut.ln] ++
    ((col_widths.zip pdfHeaders).map fun p => PdfOut.cell ⟨p.1, p.2, true⟩) ++
    [PdfOut.ln]

/-- The row loop of generate_pdf (lines 86-102): each iteration first
runs the st.print debugging line, then emits the bordered cells. -/
def pdfLoop : Nat → List PdfRow → Except PyErr (List PdfOut)
  | _, [] => .ok []
  | i, row :: rest =>
    match st_print ("Processing row " ++ toString (i + 1)) with
    | .error e => .error e
    | .ok _ =>
      match pdfLoop (i + 1) rest with
      | .error e => .error e
      | .ok more => .ok (rowCells i row ++ more)

/-- generate_pdf (lines 68-105): title, header row, then one bordered
row per dataframe row (indices are 0-based after reset_index, so S.No
is index + 1); any exception escapes to the caller. -/
def generate_pdf (rows : List PdfRow) : Except PyErr (List PdfOut) :=
  match pdfLoop 0 rows with
  | .error e => .error e
  | .ok body => .ok (titleAndHeader ++ body)

/-- A Python value as found in the parsed extraction dict (the shapes
the claims exercise: strings and numbers; numbers are modelled as exact
rationals). -/
inductive PyVal where
  | pstr (s : String)
  | pnum (q : Rat)
deriving DecidableEq

/-- Numeric value of a digit list (most significant first). -/
def digitsVal (ds : List Char) : Nat :=
  ds.foldl (fun a c => a * 10 + (c.toNat - 48)) 0

/-- Python float(s) on a string: optional sign, digits with an optional
fractional part.  (Exponents, inf and nan are outside the modelled
subset.)  Returns none where float() raises ValueError. -/
def parsePyFloat (s : String) : Option Rat :=
  let cs := (s.data.dropWhile (fun c => c == ' ')).reverse.dropWhile (fun c => c == ' ') |>.reverse
  let neg := match cs with
    | '-' :: _ => true
    | _ => false
  let cs1 := match cs with
    | '-' :: r => r
    | '+' :: r => r
    | _ => cs
  let ip := cs1.takeWhile Char.isDigit
  let cs2 := cs1.dropWhile Char.isDigit
  let fp := match cs2 with
    | '.' :: r => r.takeWhile Char.isDigit
    | _ => []
  let cs3 := match cs2 with
    | '.' :: r => r.dropWhile Char.isDigit
    | _ => cs2
  if ip.isEmpty && fp.isEmpty then none
  else if !cs3.isEmpty then none
  else
    let q : Rat := (digitsVal ip : Nat) + (digitsVal fp : Nat) / ((10 : Rat) ^ fp.length)
    some (if neg then -q else q)

/-- Python float(v) on a dict value: a number passes through unchanged
(negative values included); a string is parsed or raises ValueError. -/
def pyFloat : PyVal → Except PyErr Rat
  | .pnum q => .ok q
  | .pstr s =>
    match parsePyFloat s with
    | some q => .ok q
    | none => .error PyErr.valueError

/-- str.split-style splitting at a separator character. -/
def splitOnChar (sep : Char) : List Char → List (List Char)
  | [] => [[]]
  | c :: cs =>
    let r := splitOnChar sep cs
    if c = sep then [] :: r
    else
      match r with
      | [] => [[c]]
      | l :: ls => (c :: l) :: ls

/-- int-style reading of a non-empty all-digit character group. -/
def digitsToNat? (cs : List Char) : Option Nat :=
  if cs.isEmpty then none
  else if cs.all Char.isDigit then some (digitsVal cs) else none

/-- Gregorian leap-year rule (datetime's calendar). -/
def isLeap (y : Nat) : Bool :=
  (y % 4 == 0 && y % 100 != 0) || y % 400 == 0

/-- Days in a month of the given year. -/
def daysInMonth (y m : Nat) : Nat :=
  if m = 2 then (if isLeap y then 29 else 28)
  else if m = 4 ∨ m = 6 ∨ m = 9 ∨ m = 11 then 30
  else 31

/-- datetime.strptime(s, "%Y-%m-%d").date(): three dash-separated digit
groups (year up to 4 digits, month and day up to 2), validated as a real
calendar date.  Returns none where strptime raises ValueError. -/
def parseIsoDate (s : String) : Option Date :=
  match splitOnChar '-' s.data with
  | [ys, ms, ds] =>
    match digitsToNat? ys, digitsToNat? ms, digitsToNat? ds with
    | some y, some m, some d =>
      if 1 ≤ y ∧ y ≤ 9999 ∧ ys.length ≤ 4 ∧ ms.length ≤ 2 ∧ ds.length ≤ 2
          ∧ 1 ≤ m ∧ m ≤ 12 ∧ 1 ≤ d ∧ d ≤ daysInMonth y m
      then some ⟨y, m, d⟩ else none
    | _, _, _ => none
  | _ => none

/-- The claim-relevant entries of the (non-empty) dict produced by a
successful extraction: a field is `none` when its key is absent from
the dict.  vendorName and billDate are modelled as strings, billAmount
keeps its Python value shape for the float() cast. -/
structure Extracted where
  vendorName : Option String
  billAmount : Option PyVal
  billDate : Option String
deriving DecidableEq

/-- Result of running the scan-merge handler body: the form state left
in st.session_state (mutations before an exception persist), the
surfaced messages, and the exception if one escaped. -/
structure MergeOutcome where
  form : FormData
  msgs : List Msg
  raised : Option PyErr
deriving DecidableEq

/-- The billDate part of the merge (lines 211-216): a try block around
get('billDate') and strptime; a falsy (absent or empty) value skips the
assignment; a ValueError from strptime is caught and surfaced as a
warning, keeping the prior date. -/
def merge_date_step (f : FormData) (bd : Option String) : FormData × List Msg :=
  match bd with
  | none => (f, [])
  | some s =>
    if s = "" then (f, [])
    else
      match parseIsoDate s with
      | some d => ({ f with bill_date := d }, [])
      | none => (f, [Msg.warning "Could not parse date from AI. Please set manually."])

/-- The Scan and Extract merge (lines 208-218), run when the extraction
returned a truthy dict: vendor_name is assigned get('vendorName', ''),
bill_amount is assigned float(get('billAmount', 0.0)) - which can raise,
leaving the already-assigned vendor_name behind - then the billDate try
block runs and a success message is shown. -/
def scan_merge (form0 : FormData) (ex : Extracted) : MergeOutcome :=
  let f1 := { form0 with vendor_name := ex.vendorName.getD "" }
  match pyFloat (ex.billAmount.getD (PyVal.pnum 0)) with
  | .error e => ⟨f1, [], some e⟩
  | .ok amt =>
    let f2 := { f1 with bill_amount := amt }
    let p := merge_date_step f2 ex.billDate
    ⟨p.1, p.2 ++ [Msg.success "Details extracted! Please review and save."], none⟩

/-- JSON whitespace. -/
def wsChar (c : Char) : Bool :=
  c == ' ' || c == '\n' || c == '\t' || c == '\r'

/-- Drop leading whitespace. -/
def skipWs (cs : List Char) : List Char := cs.dropWhile wsChar

/-- Python str.strip(): drop whitespace on both ends. -/
def trimChars (cs : List Char) : List Char :=
  ((cs.dropWhile wsChar).reverse.dropWhile wsChar).reverse

/-- str.split-style splitting at newline characters. -/
def splitLines (cs : List Char) : List (List Char) := splitOnChar '\n' cs

/-- Whether pat is a prefix of cs. -/
def startsWithL : List Char → List Char → Bool
  | _, [] => true
  | [], _ :: _ => false
  | c :: cs, p :: ps => c == p && startsWithL cs ps

/-- Fueled worker for replaceAll. -/
def replaceAllF : Nat → List Char → List Char → List Char
  | 0, cs, _ => cs
  | fuel + 1, cs, pat =>
    match cs with
    | [] => []
    | c :: rest =>
      if pat ≠ [] && startsWithL cs pat then
        replaceAllF fuel (cs.drop pat.length) pat
      else c :: replaceAllF fuel rest pat

/-- Python str.replace(pat, ""): remove every (left-to-right,
non-overlapping) occurrence of pat. -/
def replaceAll (cs pat : List Char) : List Char :=
  replaceAllF cs.length cs pat

/-- Line 134: json_text.strip().replace("```json", "").replace("```", "").
Both replacements remove every occurrence, not only surrounding fences. -/
def cleanFences (t : String) : String :=
  String.mk (replaceAll (replaceAll (trimChars t.data) ("```json").data) ("```").data)

/-- A flat JSON value (the object fields this adapter consumes). -/
inductive JVal where
  | jstr (s : String)
  | jnum (q : Rat)
  | jbool (b : Bool)
  | jnull
deriving DecidableEq

/-- A parsed JSON object as a field list. -/
abbrev JObj := List (String × JVal)

/-- Parse a JSON string body after the opening quote; handles the
backslash escapes \n, \t, \quote and literal pass-through for others
(\uXXXX digits are outside the modelled subset). -/
def parseStringBody : Nat → List Char → Option (String × List Char)
  | 0, _ => none
  | _ + 1, [] => none
  | fuel + 1, c :: cs =>
    if c = '"' then some ("", cs)
    else if c = '\\' then
      match cs with
      | [] => none
      | e :: cs1 =>
        (parseStringBody fuel cs1).map fun p =>
          (String.mk ((if e = 'n' then '\n' else if e = 't' then '\t' else e) :: p.1.data), p.2)
    else
      (parseStringBody fuel cs).map fun p => (String.mk (c :: p.1.data), p.2)

/-- Parse a JSON number: optional minus, integer digits, optional
fractional digits (exponents are outside the modelled subset). -/
def parseNumber (cs : List Char) : Option (Rat × List Char) :=
  let neg := match cs with
    | '-' :: _ => true
    | _ => false
  let cs1 := match cs with
    | '-' :: r => r
    | _ => cs
  let ip := cs1.takeWhile Char.isDigit
  let cs2 := cs1.dropWhile Char.isDigit
  if ip.isEmpty then none
  else
    match cs2 with
    | '.' :: cs3 =>
      let fp := cs3.takeWhile Char.isDigit
      let cs4 := cs3.dropWhile Char.isDigit
      if fp.isEmpty then none
      else
        let q : Rat := (digitsVal ip : Nat) + (digitsVal fp : Nat) / ((10 : Rat) ^ fp.length)
        some (if neg then -q else q, cs4)
    | _ => some (if neg then -(digitsVal ip : Rat) else (digitsVal ip : Rat), cs2)

/-- Parse one flat JSON value: string, number, null, true or false. -/
def parseValue (cs : List Char) : Option (JVal × List Char) :=
  match skipWs cs with
  | [] => none
  | '"' :: rest =>
    (parseStringBody (rest.length + 1) rest).map fun p => (JVal.jstr p.1, p.2)
  | 'n' :: 'u' :: 'l' :: 'l' :: rest => some (JVal.jnull, rest)
  | 't' :: 'r' :: 'u' :: 'e' :: rest => some (JVal.jbool true, rest)
  | 'f' :: 'a' :: 'l' :: 's' :: 'e' :: rest => some (JVal.jbool false, rest)
  | cs1 => (parseNumber cs1).map fun p => (JVal.jnum p.1, p.2)

/-- Parse the key-value pairs of a flat JSON object after the opening
brace (which is written \x7b in literals below), up to and including the
closing brace. -/
def parsePairs : Nat → List Char → Option (JObj × List Char)
  | 0, _ => none
  | fuel + 1, cs =>
    match skipWs cs with
    | '"' :: rest =>
      match parseStringBody (rest.length + 1) rest with
      | none => none
      | some (key, cs1) =>
        match skipWs cs1 with
        | ':' :: cs2 =>
          match parseValue cs2 with
          | none => none
          | some (v, cs3) =>
            match skipWs cs3 with
            | ',' :: cs4 =>
              match parsePairs fuel cs4 with
              | none => none
              | some (obj, cs5) => some ((key, v) :: obj, cs5)
            | '\x7d' :: cs4 => some ([(key, v)], cs4)
            | _ => none
        | _ => none
    | _ => none

/-- Parse an entire string as a single flat JSON object, allowing
surrounding whitespace (including newlines, so a multi-line object is a
valid single JSON object here). -/
def parseFlatObject (s : String) : Option JObj :=
  match skipWs s.data with
  | '\x7b' :: cs =>
    match skipWs cs with
    | '\x7d' :: rest => if (skipWs rest).isEmpty then some [] else none
    | _ =>
      match parsePairs (cs.length + 1) cs with
      | none => none
      | some (obj, rest) => if (skipWs rest).isEmpty then some obj else none
  | _ => none

/-- Modelled from the spec: the parsing step the specification
describes - "parses the remainder as a single JSON object".  A single
flat JSON object, possibly spanning several lines, with nothing but
whitespace around it. -/
def parse_single_json_object (s : String) : Option JObj := parseFlatObject s

/-- pd.read_json(..., lines=True) as used on line 135: the input is
split at newlines, each line is stripped, blank lines are dropped, and
every remaining line must be one complete JSON object (one DataFrame
row); any line that is not raises ValueError. -/
def readJsonLines (s : String) : Except PyErr (List JObj) :=
  let lines := ((splitLines s.data).map trimChars).filter (fun l => !l.isEmpty)
  match lines.mapM (fun l => parseFlatObject (String.mk l)) with
  | some objs => .ok objs
  | none => .error PyErr.valueError

/-- One element of response['candidates'][0]['content']['parts']. -/
structure PartJson where
  text : Option String
deriving DecidableEq

/-- The 'content' object of a candidate. -/
structure ContentJson where
  parts : Option (List PartJson)
deriving DecidableEq

/-- One element of response['candidates']. -/
structure CandidateJson where
  content : Option ContentJson
deriving DecidableEq

/-- The decoded JSON body of the Gemini HTTP response.  A `none` field
models an absent key (KeyError), an empty list an out-of-range index
(IndexError). -/
structure RespJson where
  candidates : Option (List CandidateJson)
deriving DecidableEq

/-- Line 133: response.json()['candidates'][0]['content']['parts'][0]['text']. -/
def getFirstText (r : RespJson) : Except PyErr String :=
  match r.candidates with
  | none => .error PyErr.keyError
  | some [] => .error PyErr.indexError
  | some (cand :: _) =>
    match cand.content with
    | none => .error PyErr.keyError
    | some ct =>
      match ct.parts with
      | none => .error PyErr.keyError
      | some [] => .error PyErr.indexError
      | some (p :: _) =>
        match p.text with
        | none => .error PyErr.keyError
        | some t => .ok t

/-- The try-block body of extract_bill_details_with_gemini
(lines 133-135): first text part, fence cleanup, JSON-lines parse,
then .iloc[0] (IndexError on an empty frame). -/
def extractBody (r : RespJson) : Except PyErr JObj :=
  match getFirstText r with
  | .error e => .error e
  | .ok jt =>
    match readJsonLines (cleanFences jt) with
    | .error e => .error e
    | .ok [] => .error PyErr.indexError
    | .ok (o :: _) => .ok o

/-- extract_bill_details_with_gemini (lines 107-142), from the point
where the HTTP call has resolved: a raised RequestException (unreachable
endpoint or non-2xx status) is caught and surfaced; any exception from
the parsing body is caught and surfaced; otherwise the parsed dict is
returned.  No exception escapes. -/
def extract_bill_details_with_gemini (resp : Except PyErr RespJson) :
    Option JObj × List Msg :=
  match resp with
  | .error _ => (none, [Msg.error "API request failed"])
  | .ok r =>
    match extractBody r with
    | .error _ => (none, [Msg.error "Failed to parse AI response"])
    | .ok o => (some o, [])

/-- A stored bill row used as concrete test data. -/
def wRow : BillRow := ⟨1, "Acme", "7", toIso ⟨2024, 3, 1⟩, 10, "Dr X"⟩

/-- A populated (non-default) form state used as concrete test data. -/
def fPop : FormData := ⟨ "Acme", "7", ⟨2024, 1, 1⟩, 5, some "Dr X"⟩

/-- An extraction dict that contains none of the three expected keys
(for instance a dict of entirely different keys, which is truthy). -/
def exEmpty : Extracted := ⟨none, none, none⟩

/-- A response text that is one JSON object spread over three lines
(braces written with \x7b and \x7d escapes). -/
def mlText : String := "\x7b\n \"vendorName\": \"Acme\"\n\x7d"

/-- A Gemini response whose first text part is mlText. -/
def mlResp : RespJson := ⟨some [⟨some ⟨some [⟨some mlText⟩]⟩⟩]⟩

/-- A fenced single-line response text. -/
def goodText : String :=
  "```json\n\x7b\"vendorName\": \"Acme\", \"billAmount\": 42, \"billDate\": \"2024-03-01\"\x7d\n```"

/-- A Gemini response whose first text part is goodText. -/
def goodResp : RespJson := ⟨some [⟨some ⟨some [⟨some goodText⟩]⟩⟩]⟩

/-- The dict goodText parses to. -/
def goodObj : JObj :=
  [("vendorName", JVal.jstr "Acme"), ("billAmount", JVal.jnum 42),
    ("billDate", JVal.jstr "2024-03-01")]

theorem dchar_ltb : ∀ x, x < 10 → ∀ y, y < 10 →
    decide (dchar x < dchar y) = decide (x < y) := by decide

theorem dchar_beq : ∀ x, x < 10 → ∀ y, y < 10 →
    (dchar x == dchar y) = decide (x = y) := by decide

theorem dchar_eq_iff : ∀ x, x < 10 → ∀ y, y < 10 →
    (dchar x = dchar y ↔ x = y) := by decide

theorem dchar_ltb_mod (a b : Nat) :
    decide (dchar (a % 10) < dchar (b % 10)) = decide (a % 10 < b % 10) :=
  dchar_ltb _ (Nat.mod_lt a (by decide)) _ (Nat.mod_lt b (by decide))

theorem dchar_beq_mod (a b : Nat) :
    (dchar (a % 10) == dchar (b % 10)) = decide (a % 10 = b % 10) :=
  dchar_beq _ (Nat.mod_lt a (by decide)) _ (Nat.mod_lt b (by decide))

theorem dchar_eq_mod (a b : Nat) :
    dchar (a % 10) = dchar (b % 10) ↔ a % 10 = b % 10 :=
  dchar_eq_iff _ (Nat.mod_lt a (by decide)) _ (Nat.mod_lt b (by decide))

/-- Splitting a lexicographic comparison at equal-length leading blocks. -/
theorem lexLe_append (s1 t1 : List Char) (h : s1.length = t1.length)
    (s2 t2 : List Char) :
    lexLe (s1 ++ s2) (t1 ++ t2)
      = (lexLt s1 t1 || (decide (s1 = t1) && lexLe s2 t2)) := by
  induction s1 generalizing t1 with
  | nil =>
    cases t1 with
    | nil => simp [lexLt]
    | cons b t1 => simp at h
  | cons a s1 ih =>
    cases t1 with
    | nil => simp at h
    | cons b t1 =>
      simp only [List.cons_append, lexLe, lexLt, List.append_eq]
      rw [ih t1 (by simpa using h)]
      by_cases hab : a = b
      · subst hab
        simp [lt_self_iff_false, Bool.or_assoc]
      · have h1 : (a == b) = false := by simp [hab]
        have h2 : decide (a :: s1 = b :: t1) = false := by simp [hab]
        simp only [h1, h2, Bool.false_and, Bool.or_false, Bool.and_false]

/-- Comparing cons cells with the same head character. -/
theorem lexLe_cons_same (c : Char) (s t : List Char) :
    lexLe (c :: s) (c :: t) = lexLe s t := by
  simp [lexLe, lt_irrefl]

theorem lexLt_dchar4_mod (p q r s p2 q2 r2 s2 : Nat) :
    lexLt [dchar (p % 10), dchar (q % 10), dchar (r % 10), dchar (s % 10)]
        [dchar (p2 % 10), dchar (q2 % 10), dchar (r2 % 10), dchar (s2 % 10)] = true ↔
      1000 * (p % 10) + 100 * (q % 10) + 10 * (r % 10) + s % 10
        < 1000 * (p2 % 10) + 100 * (q2 % 10) + 10 * (r2 % 10) + s2 % 10 := by
  simp only [lexLt, dchar_ltb_mod, dchar_beq_mod]
  simp only [Bool.or_eq_true, Bool.and_eq_true, decide_eq_true_eq, Bool.false_eq_true,
    and_false, or_false]
  omega

theorem lexLt_dchar2_mod (p q p2 q2 : Nat) :
    lexLt [dchar (p % 10), dchar (q % 10)] [dchar (p2 % 10), dchar (q2 % 10)] = true ↔
      10 * (p % 10) + q % 10 < 10 * (p2 % 10) + q2 % 10 := by
  simp only [lexLt, dchar_ltb_mod, dchar_beq_mod]
  simp only [Bool.or_eq_true, Bool.and_eq_true, decide_eq_true_eq, Bool.false_eq_true,
    and_false, or_false]
  omega

theorem lexLe_dchar2_mod (p q p2 q2 : Nat) :
    lexLe [dchar (p % 10), dchar (q % 10)] [dchar (p2 % 10), dchar (q2 % 10)] = true ↔
      10 * (p % 10) + q % 10 ≤ 10 * (p2 % 10) + q2 % 10 := by
  simp only [lexLe, dchar_ltb_mod, dchar_beq_mod]
  simp only [Bool.or_eq_true, Bool.and_eq_true, decide_eq_true_eq, and_true]
  omega

/-- On ISO-rendered valid dates, Python's lexicographic string order
coincides with the calendar order of the dates. -/
theorem lexLe_toIso_iff (a b : Date) (ha : validDate a) (hb : validDate b) :
    lexLe (toIso a).data (toIso b).data = true ↔ dateLe a b := by
  obtain ⟨y1, m1, d1⟩ := a
  obtain ⟨y2, m2, d2⟩ := b
  unfold validDate at ha hb
  dsimp only at ha hb
  obtain ⟨hy1a, hy1b, hm1a, hm1b, hd1a, hd1b⟩ := ha
  obtain ⟨hy2a, hy2b, hm2a, hm2b, hd2a, hd2b⟩ := hb
  have hdy1 : 1000 * (y1 / 1000 % 10) + 100 * (y1 / 100 % 10) + 10 * (y1 / 10 % 10)
      + y1 % 10 = y1 := by omega
  have hdy2 : 1000 * (y2 / 1000 % 10) + 100 * (y2 / 100 % 10) + 10 * (y2 / 10 % 10)
      + y2 % 10 = y2 := by omega
  have hdm1 : 10 * (m1 / 10 % 10) + m1 % 10 = m1 := by omega
  have hdm2 : 10 * (m2 / 10 % 10) + m2 % 10 = m2 := by omega
  have hdd1 : 10 * (d1 / 10 % 10) + d1 % 10 = d1 := by omega
  have hdd2 : 10 * (d2 / 10 % 10) + d2 % 10 = d2 := by omega
  show lexLe (pad4 y1 ++ '-' :: (pad2 m1 ++ '-' :: pad2 d1))
      (pad4 y2 ++ '-' :: (pad2 m2 ++ '-' :: pad2 d2)) = true ↔ _
  rw [lexLe_append (pad4 y1) (pad4 y2) (by simp [pad4]),
    lexLe_cons_same, lexLe_append (pad2 m1) (pad2 m2) (by simp [pad2]),
    lexLe_cons_same]
  simp only [Bool.or_eq_true, Bool.and_eq_true, decide_eq_true_eq]
  simp only [pad4, pad2]
  rw [lexLt_dchar4_mod, lexLt_dchar2_mod, lexLe_dchar2_mod]
  simp only [List.cons.injEq, and_true, dchar_eq_mod]
  simp only [dateLe]
  rw [hdy1, hdy2, hdm1, hdm2, hdd1, hdd2]
  omega

/-- Bool-level corollary: the filter's string test on serialized dates
equals the date-order test. -/
theorem pyStrLe_toIso (a b : Date) (ha : validDate a) (hb : validDate b) :
    pyStrLe (toIso a) (toIso b) = dateLeB a b := by
  have h := lexLe_toIso_iff a b ha hb
  by_cases hd : dateLe a b
  · have h1 : pyStrLe (toIso a) (toIso b) = true := h.mpr hd
    have h2 : dateLeB a b = true := by simp [dateLeB, hd]
    rw [h1, h2]
  · have h1 : pyStrLe (toIso a) (toIso b) = false := by
      cases hq : pyStrLe (toIso a) (toIso b)
      · rfl
      · exact absurd (h.mp hq) hd
    have h2 : dateLeB a b = false := by simp [dateLeB, hd]
    rw [h1, h2]

/-- C1: For every save submission with non-empty vendor_name and a
present bill_date, the save handler performs exactly one store insert
whose record carries the entered vendor_name, bill_no, bill_amount, the
selected doctor_name, and bill_date serialized as the ISO YYYY-MM-DD
string, and after a successful insert resets the pending form state to
its defaults (vendor_name empty, bill_no empty, bill_date today,
bill_amount 0.0, doctor_name unset). -/
theorem save_valid_inserts_and_resets (vendor bno : String) (d : Date) (amt : Rat)
    (doc : String) (f0 : FormData) (today : Date) (c : Cache) (hv : vendor ≠ "") :
    save_submitted_handler vendor bno (some d) amt doc f0 today c (.ok ()) =
      ⟨[⟨vendor, bno, toIso d, amt, doc⟩], ⟨ "", "", today, 0, none⟩, clearCache,
        [Msg.success "Bill saved successfully!"]⟩ := by
  simp [save_submitted_handler, hv, defaultFormData]

theorem save_valid_inserts_and_resets_w :
    save_submitted_handler "Acme" "12" (some ⟨2024, 3, 1⟩) 10 "Dr X" fPop
        ⟨2024, 3, 2⟩ ⟨none, none⟩ (.ok ()) =
      ⟨[⟨ "Acme", "12", toIso ⟨2024, 3, 1⟩, 10, "Dr X"⟩],
        ⟨ "", "", ⟨2024, 3, 2⟩, 0, none⟩, clearCache,
        [Msg.success "Bill saved successfully!"]⟩ :=
  save_valid_inserts_and_resets "Acme" "12" ⟨2024, 3, 1⟩ 10 "Dr X" fPop
    ⟨2024, 3, 2⟩ ⟨none, none⟩ (by decide)

/-- C2: For every bill list and date pair, if start_date > end_date the
filter step surfaces an error and produces no filtered set; otherwise
the filtered set is exactly the bills whose serialized bill_date lies
between str(start_date) and str(end_date), and because stored dates are
ISO-normalized that string comparison coincides with date order. -/
theorem filter_range_spec (bills : List BillRow) (dates : BillRow → Date) (s e : Date)
    (hs : validDate s) (he : validDate e)
    (hball : ∀ b ∈ bills, validDate (dates b) ∧ b.bill_date = toIso (dates b)) :
    (dateLt e s →
      filter_step bills s e = .error "Error: Start date must be before end date.") ∧
    (¬ dateLt e s →
      filter_step bills s e =
        .ok (bills.filter fun b => dateLeB s (dates b) && dateLeB (dates b) e)) := by
  constructor
  · intro h
    simp [filter_step, dateLtB, h]
  · intro h
    have hcond : ¬ (dateLtB e s = true) := by simp [dateLtB, h]
    unfold filter_step
    rw [if_neg hcond]
    exact congrArg Except.ok (List.filter_congr fun b hb => by
      obtain ⟨hvb, hdb⟩ := hball b hb
      rw [hdb, pyStrLe_toIso s (dates b) hs hvb, pyStrLe_toIso (dates b) e hvb he])

theorem filter_range_spec_w :
    (dateLt (⟨2024, 3, 2⟩ : Date) ⟨2024, 3, 1⟩ →
      filter_step [wRow] ⟨2024, 3, 1⟩ ⟨2024, 3, 2⟩ =
        .error "Error: Start date must be before end date.") ∧
    (¬ dateLt (⟨2024, 3, 2⟩ : Date) ⟨2024, 3, 1⟩ →
      filter_step [wRow] ⟨2024, 3, 1⟩ ⟨2024, 3, 2⟩ =
        .ok ([wRow].filter fun _ =>
          dateLeB ⟨2024, 3, 1⟩ ⟨2024, 3, 1⟩ && dateLeB ⟨2024, 3, 1⟩ ⟨2024, 3, 2⟩)) :=
  filter_range_spec [wRow] (fun _ => ⟨2024, 3, 1⟩) ⟨2024, 3, 1⟩ ⟨2024, 3, 2⟩
    (by decide) (by decide) (by decide)

/-- C3: the claim states generate_pdf renders a header row plus one
bordered row per bill; in fact line 87 calls st.print, an attribute
that does not exist on the streamlit module, so AttributeError is
raised on the first row and no non-empty bill list is ever rendered. -/
theorem generate_pdf_raises_on_nonempty (rows : List PdfRow) (h : rows ≠ []) :
    generate_pdf rows = .error PyErr.attributeError := by
  cases rows with
  | nil => exact absurd rfl h
  | cons r rest => rfl

theorem generate_pdf_raises_on_nonempty_w :
    generate_pdf [⟨some "Acme", some "1", some "2024-03-01", some 10, none⟩] =
      .error PyErr.attributeError :=
  generate_pdf_raises_on_nonempty
    [⟨some "Acme", some "1", some "2024-03-01", some 10, none⟩] (by decide)

/-- C4: For every save submission missing vendor_name or bill_date, a
warning is surfaced, no store insert occurs, and the pending form state
(and cache) are unchanged. -/
theorem save_invalid_warns_no_insert (vendor bno : String) (bd : Option Date)
    (amt : Rat) (doc : String) (f0 : FormData) (today : Date) (c : Cache)
    (r : Except String Unit) (h : vendor = "" ∨ bd = none) :
    save_submitted_handler vendor bno bd amt doc f0 today c r =
      ⟨[], f0, c, [Msg.warning "Vendor Name and Bill Date are required."]⟩ := by
  cases bd with
  | none => rfl
  | some d =>
    rcases h with h | h
    · simp [save_submitted_handler, h]
    · simp at h

theorem save_invalid_warns_no_insert_w :
    save_submitted_handler "" "12" (some ⟨2024, 3, 1⟩) 10 "Dr X" fPop
        ⟨2024, 3, 2⟩ ⟨none, none⟩ (.ok ()) =
      ⟨[], fPop, ⟨none, none⟩, [Msg.warning "Vendor Name and Bill Date are required."]⟩ :=
  save_invalid_warns_no_insert "" "12" (some ⟨2024, 3, 1⟩) 10 "Dr X" fPop
    ⟨2024, 3, 2⟩ ⟨none, none⟩ (.ok ()) (Or.inl rfl)

/-- C5 counterexample: a valid submission whose insert raises leaves the
populated form state untouched - it is not reset to the defaults the
claim asserts. -/
theorem save_insert_failure_keeps_form_cex :
    (save_submitted_handler "Acme" "12" (some ⟨2024, 3, 1⟩) 10 "Dr X" fPop
        ⟨2024, 3, 2⟩ ⟨none, none⟩ (.error "network down")).form_data = fPop ∧
    fPop ≠ defaultFormData ⟨2024, 3, 2⟩ := by decide

/-- C5 amended: when the insert call raises, the except branch only
surfaces an error: the pending form state and the cache are unchanged;
the form is reset exactly when the insert call returns without raising
(its returned response value is never inspected). -/
theorem save_insert_failure_amended (vendor bno : String) (d : Date) (amt : Rat)
    (doc : String) (f0 : FormData) (today : Date) (c : Cache) (e : String)
    (hv : vendor ≠ "") :
    save_submitted_handler vendor bno (some d) amt doc f0 today c (.error e) =
      ⟨[⟨vendor, bno, toIso d, amt, doc⟩], f0, c,
        [Msg.error ("Failed to save bill: " ++ e)]⟩ := by
  simp [save_submitted_handler, hv]

theorem save_insert_failure_amended_w :
    save_submitted_handler "Acme" "12" (some ⟨2024, 3, 1⟩) 10 "Dr X" fPop
        ⟨2024, 3, 2⟩ ⟨none, none⟩ (.error "network down") =
      ⟨[⟨ "Acme", "12", toIso ⟨2024, 3, 1⟩, 10, "Dr X"⟩], fPop, ⟨none, none⟩,
        [Msg.error ("Failed to save bill: " ++ "network down")]⟩ :=
  save_insert_failure_amended "Acme" "12" ⟨2024, 3, 1⟩ 10 "Dr X" fPop
    ⟨2024, 3, 2⟩ ⟨none, none⟩ "network down" (by decide)

/-- Unfolding scan_merge when the float() cast raises. -/
theorem scan_merge_err (f : FormData) (vn : Option String) (ba : Option PyVal)
    (bd : Option String) (e : PyErr)
    (hfl : pyFloat (ba.getD (PyVal.pnum 0)) = .error e) :
    scan_merge f ⟨vn, ba, bd⟩ =
      ⟨{ f with vendor_name := vn.getD "" }, [], some e⟩ := by
  unfold scan_merge
  dsimp only
  rw [hfl]

/-- Unfolding scan_merge when the float() cast returns. -/
theorem scan_merge_ok (f : FormData) (vn : Option String) (ba : Option PyVal)
    (bd : Option String) (amt : Rat)
    (hfl : pyFloat (ba.getD (PyVal.pnum 0)) = .ok amt) :
    scan_merge f ⟨vn, ba, bd⟩ =
      ⟨(merge_date_step { f with vendor_name := vn.getD "", bill_amount := amt } bd).1,
        (merge_date_step { f with vendor_name := vn.getD "", bill_amount := amt } bd).2
          ++ [Msg.success "Details extracted! Please review and save."], none⟩ := by
  unfold scan_merge
  dsimp only
  rw [hfl]

/-- The date step never touches the other four form fields. -/
theorem merge_date_step_frame (f : FormData) (bd : Option String) :
    (merge_date_step f bd).1.vendor_name = f.vendor_name ∧
    (merge_date_step f bd).1.bill_no = f.bill_no ∧
    (merge_date_step f bd).1.bill_amount = f.bill_amount ∧
    (merge_date_step f bd).1.doctor_name = f.doctor_name := by
  cases bd with
  | none => exact ⟨rfl, rfl, rfl, rfl⟩
  | some s =>
    simp only [merge_date_step]
    by_cases hs : s = ""
    · rw [if_pos hs]
      exact ⟨rfl, rfl, rfl, rfl⟩
    · rw [if_neg hs]
      cases parseIsoDate s with
      | none => exact ⟨rfl, rfl, rfl, rfl⟩
      | some d => exact ⟨rfl, rfl, rfl, rfl⟩

/-- An unparseable non-empty billDate keeps the date and warns. -/
theorem merge_date_step_fail (f : FormData) (s : String) (hs : s ≠ "")
    (hp : parseIsoDate s = none) :
    merge_date_step f (some s) =
      (f, [Msg.warning "Could not parse date from AI. Please set manually."]) := by
  simp only [merge_date_step]
  rw [if_neg hs, hp]

/-- An empty billDate string is falsy and skips the assignment. -/
theorem merge_date_step_empty (f : FormData) :
    merge_date_step f (some "") = (f, []) := rfl

/-- C6 counterexample: merging a successful extraction that returned
none of the three keys still overwrites vendor_name (with "") and
bill_amount (with 0.0), so fields the extraction did not return do not
all keep their prior pending values. -/
theorem merge_missing_fields_overwrite_cex :
    (scan_merge fPop exEmpty).raised = none ∧
    (scan_merge fPop exEmpty).form.vendor_name ≠ fPop.vendor_name ∧
    (scan_merge fPop exEmpty).form.bill_amount ≠ fPop.bill_amount := by decide

/-- C6 amended: only vendor_name, bill_amount and bill_date can be
overwritten by the merge and bill_no and doctor_name are never touched;
a missing or unparseable billDate leaves bill_date at its prior value,
but a missing vendorName resets vendor_name to "" and a missing
billAmount resets bill_amount to 0.0 (rather than keeping the prior
pending values). -/
theorem scan_merge_amended (f : FormData) (ex : Extracted) :
    (scan_merge f ex).form.bill_no = f.bill_no ∧
    (scan_merge f ex).form.doctor_name = f.doctor_name ∧
    (ex.vendorName = none → (scan_merge f ex).form.vendor_name = "") ∧
    (∀ v, ex.vendorName = some v → (scan_merge f ex).form.vendor_name = v) ∧
    (ex.billDate = none → (scan_merge f ex).form.bill_date = f.bill_date) ∧
    (∀ s, ex.billDate = some s → parseIsoDate s = none →
      (scan_merge f ex).form.bill_date = f.bill_date) ∧
    ((scan_merge f ex).raised = none → ex.billAmount = none →
      (scan_merge f ex).form.bill_amount = 0) := by
  obtain ⟨vn, ba, bd⟩ := ex
  cases hfl : pyFloat (ba.getD (PyVal.pnum 0)) with
  | error e =>
    rw [scan_merge_err f vn ba bd e hfl]
    refine ⟨rfl, rfl, ?_, ?_, fun _ => rfl, fun s _ _ => rfl, ?_⟩
    · intro h
      subst h
      rfl
    · intro v hv
      subst hv
      rfl
    · intro hcontra
      simp at hcontra
  | ok amt =>
    rw [scan_merge_ok f vn ba bd amt hfl]
    obtain ⟨hvf, hbf, haf, hdf⟩ :=
      merge_date_step_frame { f with vendor_name := vn.getD "", bill_amount := amt } bd
    refine ⟨hbf, hdf, ?_, ?_, ?_, ?_, ?_⟩
    · intro h
      subst h
      exact hvf
    · intro v hv
      subst hv
      exact hvf
    · intro h
      subst h
      rfl
    · intro s hbd hp
      subst hbd
      by_cases hs : s = ""
      · subst hs
        rw [merge_date_step_empty]
      · rw [merge_date_step_fail _ s hs hp]
    · intro _ hba
      subst hba
      have hamt : (Except.ok (0 : Rat) : Except PyErr Rat) = .ok amt := hfl
      have h0 : (0 : Rat) = amt := by
        injection hamt
      rw [haf]
      exact h0.symm

theorem scan_merge_amended_w :
    (scan_merge fPop ⟨none, none, some "March 1st"⟩).form.bill_no = fPop.bill_no ∧
    (scan_merge fPop ⟨none, none, some "March 1st"⟩).form.vendor_name = "" ∧
    (scan_merge fPop ⟨none, none, some "March 1st"⟩).form.bill_date = fPop.bill_date ∧
    (scan_merge fPop ⟨none, none, some "March 1st"⟩).form.bill_amount = 0 :=
  have h := scan_merge_amended fPop ⟨none, none, some "March 1st"⟩
  ⟨h.1, h.2.2.1 rfl, h.2.2.2.2.2.1 "March 1st" rfl (by decide),
    h.2.2.2.2.2.2 (by decide) rfl⟩

/-- C7 counterexample: a successful extraction whose billAmount is a
non-numeric string makes the merge raise ValueError (float("abc")),
after vendor_name has already been overwritten - the merge is not
raise-free and no 0.0 fallback is applied. -/
theorem merge_bad_amount_raises_cex :
    (scan_merge fPop ⟨some "Acme", some (PyVal.pstr "abc"), none⟩).raised
        = some PyErr.valueError ∧
    (scan_merge fPop ⟨some "Acme", some (PyVal.pstr "abc"), none⟩).form.vendor_name
        = "Acme" ∧
    (scan_merge fPop ⟨some "Acme", some (PyVal.pstr "abc"), none⟩).form.bill_amount
        = fPop.bill_amount := by decide

/-- C7 amended: a missing billAmount is treated as 0.0; a numeric
billAmount is cast with float() and stored unchanged - negative values
included; a non-numeric string billAmount makes the merge raise
ValueError, aborting after the vendor_name assignment. -/
theorem merge_amount_amended (f : FormData) (ex : Extracted) :
    (ex.billAmount = none →
      (scan_merge f ex).raised = none ∧ (scan_merge f ex).form.bill_amount = 0) ∧
    (∀ q, ex.billAmount = some (PyVal.pnum q) →
      (scan_merge f ex).raised = none ∧ (scan_merge f ex).form.bill_amount = q) ∧
    (∀ s, ex.billAmount = some (PyVal.pstr s) → parsePyFloat s = none →
      (scan_merge f ex).raised = some PyErr.valueError ∧
      (scan_merge f ex).form = { f with vendor_name := Option.getD ex.vendorName "" }) := by
  obtain ⟨vn, ba, bd⟩ := ex
  refine ⟨?_, ?_, ?_⟩
  · intro hba
    subst hba
    rw [scan_merge_ok f vn none bd 0 rfl]
    exact ⟨rfl, (merge_date_step_frame _ bd).2.2.1⟩
  · intro q hba
    subst hba
    rw [scan_merge_ok f vn (some (PyVal.pnum q)) bd q rfl]
    exact ⟨rfl, (merge_date_step_frame _ bd).2.2.1⟩
  · intro s hba hp
    subst hba
    have hfl : pyFloat ((some (PyVal.pstr s)).getD (PyVal.pnum 0)) = .error PyErr.valueError := by
      simp [pyFloat, hp]
    rw [scan_merge_err f vn (some (PyVal.pstr s)) bd PyErr.valueError hfl]
    exact ⟨rfl, rfl⟩

theorem merge_amount_amended_w :
    ((scan_merge fPop ⟨none, none, none⟩).raised = none ∧
      (scan_merge fPop ⟨none, none, none⟩).form.bill_amount = 0) ∧
    ((scan_merge fPop ⟨none, some (PyVal.pnum (-5)), none⟩).raised = none ∧
      (scan_merge fPop ⟨none, some (PyVal.pnum (-5)), none⟩).form.bill_amount = -5) ∧
    ((scan_merge fPop ⟨none, some (PyVal.pstr "abc"), none⟩).raised
        = some PyErr.valueError ∧
      (scan_merge fPop ⟨none, some (PyVal.pstr "abc"), none⟩).form
        = { fPop with vendor_name := "" }) :=
  ⟨(merge_amount_amended fPop ⟨none, none, none⟩).1 rfl,
    (merge_amount_amended fPop ⟨none, some (PyVal.pnum (-5)), none⟩).2.1 (-5) rfl,
    (merge_amount_amended fPop ⟨none, some (PyVal.pstr "abc"), none⟩).2.2 "abc" rfl
      (by decide)⟩

/-- C8 counterexample: the adapter does not parse the cleaned remainder
as a single JSON object - it parses it as JSON lines.  A response whose
text is one JSON object spread over several lines is a valid single
JSON object (the spec-modelled parse accepts it), yet the adapter
returns a parse failure. -/
theorem extract_multiline_object_cex :
    extract_bill_details_with_gemini (.ok mlResp) =
      (none, [Msg.error "Failed to parse AI response"]) ∧
    parse_single_json_object (cleanFences mlText) =
      some [("vendorName", JVal.jstr "Acme")] := by decide

/-- C8 amended: the adapter takes candidates[0].content.parts[0].text,
removes every occurrence of the fence markers, and parses the remainder
as JSON lines, returning the first parsed row; a raised request error
or any parsing failure yields None with a surfaced message, and no
exception escapes the adapter. -/
theorem extract_amended (resp : Except PyErr RespJson) :
    (∀ e, resp = .error e →
      extract_bill_details_with_gemini resp =
        (none, [Msg.error "API request failed"])) ∧
    (∀ r e, resp = .ok r → extractBody r = .error e →
      extract_bill_details_with_gemini resp =
        (none, [Msg.error "Failed to parse AI response"])) ∧
    (∀ r o, resp = .ok r → extractBody r = .ok o →
      extract_bill_details_with_gemini resp = (some o, []) ∧
      ∃ t rest, getFirstText r = .ok t ∧
        readJsonLines (cleanFences t) = .ok (o :: rest)) := by
  refine ⟨?_, ?_, ?_⟩
  · intro e he
    subst he
    rfl
  · intro r e hr hb
    subst hr
    simp [extract_bill_details_with_gemini, hb]
  · intro r o hr hb
    subst hr
    constructor
    · simp [extract_bill_details_with_gemini, hb]
    · unfold extractBody at hb
      cases hg : getFirstText r with
      | error e2 =>
        rw [hg] at hb
        simp at hb
      | ok t =>
        rw [hg] at hb
        dsimp only at hb
        cases hl : readJsonLines (cleanFences t) with
        | error e2 =>
          rw [hl] at hb
          simp at hb
        | ok objs =>
          rw [hl] at hb
          cases objs with
          | nil => simp at hb
          | cons o1 rest =>
            simp only [Except.ok.injEq] at hb
            subst hb
            exact ⟨t, rest, rfl, hl⟩

theorem extract_amended_w :
    extract_bill_details_with_gemini (.ok goodResp) = (some goodObj, []) ∧
    ∃ t rest, getFirstText goodResp = .ok t ∧
      readJsonLines (cleanFences t) = .ok (goodObj :: rest) :=
  (extract_amended (.ok goodResp)).2.2 goodResp goodObj rfl (by decide)

/-- C9: after every successful write on either entity - doctor add,
doctor delete, bill save, bill delete - the whole read cache is cleared
(both memo entries), so the next fetch_doctors or fetch_bills call
reads the store. -/
theorem writes_clear_cache (name : String) (names : List String) (c : Cache)
    (vendor bno : String) (d : Date) (amt : Rat) (doc : String) (f0 : FormData)
    (today : Date) (docId billId : Nat) (store : Store)
    (hname : name ≠ "") (hdup : names.contains name = false) (hv : vendor ≠ "") :
    (add_doctor_handler true name names c (.ok ())).cache = clearCache ∧
    (delete_doctor_handler docId c (.ok ())).cache = clearCache ∧
    (save_submitted_handler vendor bno (some d) amt doc f0 today c (.ok ())).cache
        = clearCache ∧
    (delete_bill_handler billId c (.ok ())).cache = clearCache ∧
    (fetch_doctors clearCache store).1 = store.doctors ∧
    (fetch_bills clearCache store).1 = store.bills := by
  have hmem : name ∉ names := by simpa using hdup
  refine ⟨?_, rfl, ?_, rfl, rfl, rfl⟩
  · simp [add_doctor_handler, hname, hmem]
  · simp [save_submitted_handler, hv]

theorem writes_clear_cache_w :
    (add_doctor_handler true "Dr B" ["Dr A"] ⟨some [], some []⟩ (.ok ())).cache
        = clearCache ∧
    (delete_doctor_handler 3 ⟨some [], some []⟩ (.ok ())).cache = clearCache ∧
    (save_submitted_handler "Acme" "12" (some ⟨2024, 3, 1⟩) 10 "Dr X" fPop
        ⟨2024, 3, 2⟩ ⟨some [], some []⟩ (.ok ())).cache = clearCache ∧
    (delete_bill_handler 4 ⟨some [], some []⟩ (.ok ())).cache = clearCache ∧
    (fetch_doctors clearCache ⟨[⟨1, "Dr A"⟩], [wRow]⟩).1 = [⟨1, "Dr A"⟩] ∧
    (fetch_bills clearCache ⟨[⟨1, "Dr A"⟩], [wRow]⟩).1 = [wRow] :=
  writes_clear_cache "Dr B" ["Dr A"] ⟨some [], some []⟩ "Acme" "12" ⟨2024, 3, 1⟩
    10 "Dr X" fPop ⟨2024, 3, 2⟩ 3 4 ⟨[⟨1, "Dr A"⟩], [wRow]⟩
    (by decide) (by decide) (by decide)

/-- C10: an add-doctor submission whose non-empty name exactly
(case-sensitively) equals a cached doctor name performs no insert and
surfaces the already-exists warning; a submission with an empty name
performs no insert and surfaces nothing. -/
theorem add_doctor_duplicate_and_empty (name : String) (names : List String)
    (c : Cache) (r : Except String Unit) :
    (name ≠ "" → names.contains name = true →
      add_doctor_handler true name names c r =
        ⟨[], c, [Msg.warning "This doctor already exists."]⟩) ∧
    (name = "" → add_doctor_handler true name names c r = ⟨[], c, []⟩) := by
  constructor
  · intro h1 h2
    have hmem : name ∈ names := by simpa using h2
    simp [add_doctor_handler, h1, hmem]
  · intro h1
    subst h1
    rfl

theorem add_doctor_duplicate_and_empty_w :
    add_doctor_handler true "Dr A" ["Dr A"] ⟨some [], some []⟩ (.ok ()) =
      ⟨[], ⟨some [], some []⟩, [Msg.warning "This doctor already exists."]⟩ ∧
    add_doctor_handler true "" ["Dr A"] ⟨some [], some []⟩ (.ok ()) =
      ⟨[], ⟨some [], some []⟩, []⟩ :=
  ⟨(add_doctor_duplicate_and_empty "Dr A" ["Dr A"] ⟨some [], some []⟩ (.ok ())).1
      (by decide) (by decide),
    (add_doctor_duplicate_and_empty "" ["Dr A"] ⟨some [], some []⟩ (.ok ())).2 rfl⟩
